import Mathlib

/-!
# Verification of the PIE-Spring-2023 chassis / devices / mock-robot code

Shallow embedding of the queued-motion chassis engine (`chassis.py`), the
wheel goal tracker (`devices.py`) and the simulated robot backend
(`mock_robot.py`), with theorems settling the frozen claims about them.

Machine reals (Python floats) are modelled as `ℝ` (or `ℚ` where no
irrational constant occurs); Python exceptions are modelled with
`Except Unit`: a `.error ⟨⟩` result marks the statement at which the
Python code raises, and division executes only behind an explicit
nonzero test, mirroring the `ZeroDivisionError` semantics of Python.
-/

namespace PIE

/-! ## Motion queue / chassis state machine (`BaseQueuedChassis.update`)

A queued motion is observed by the state machine only through its
`update()` result (truthy = still running).  We model a motion by the
number of times its `update()` still returns `True` before it returns
`False`: a motion `n` reports "running" `n` times and then completes.

The state of `BaseQueuedChassis` relevant to the idle-flag claims is the
queue together with `_is_idle`.  `chassisUpdate` is one call of
`update()`; it also reports how many times the `_on_start_new_motion`
hook fired during the call and whether `_on_queue_finish` fired. -/

/-- One call of `BaseQueuedChassis.update` (chassis.py lines 42-56).
Input: queue (head = front) and the `_is_idle` flag.  Output: the new
`(queue, _is_idle)` state and the hook events `(starts, finishes)` of
this call.  The Python control flow is:

* if queue nonempty and idle: fire start hook, clear idle;
* if queue nonempty and the `update()` of the head returns falsy: pop the head,
  and if the queue is still nonempty fire the start hook for the new
  head (and run its setup);
* `elif` queue empty and not idle: fire finish hook, set idle. -/
def chassisUpdate (queue : List Nat) (isIdle : Bool) :
    (List Nat × Bool) × (Nat × Nat) :=
  let isIdle1 := if queue ≠ [] ∧ isIdle then false else isIdle
  let starts1 : Nat := if queue ≠ [] ∧ isIdle then 1 else 0
  match queue with
  | [] =>
      if isIdle1 then (([], isIdle1), (starts1, 0))
      else (([], true), (starts1, 1))
  | n :: rest =>
      if n = 0 then
        -- the update() of the head returned falsy: pop it; the `elif` branch is
        -- not evaluated because the `if` branch was taken
        ((rest, isIdle1), (starts1 + (if rest ≠ [] then 1 else 0), 0))
      else
        (((n - 1) :: rest, isIdle1), (starts1, 0))

/-- Iterate `chassisUpdate` for `k` control ticks, accumulating the
hook-event counts. -/
def runChassis (queue : List Nat) (isIdle : Bool) : Nat → (List Nat × Bool) × (Nat × Nat)
  | 0 => ((queue, isIdle), (0, 0))
  | k + 1 =>
      let step := chassisUpdate queue isIdle
      let rest := runChassis step.1.1 step.1.2 k
      (rest.1, (step.2.1 + rest.2.1, step.2.2 + rest.2.2))

/-! ## Real-number helpers -/

/-- The Python function `math.copysign(x, y)`: magnitude of `x` carrying the sign
of `y`.  `ℝ` has no negative zero, so `y = 0` takes the positive
branch, exactly as Python does for a second argument of `+0.0` (the
value arising on the code paths modelled here). -/
noncomputable def copysign (x y : ℝ) : ℝ := if y < 0 then -|x| else |x|

/-! ## Motors and wheels (`devices.py`) -/

/-- Observable state of a `devices.Motor` as the wheel and chassis code
uses it: the value `get_encoder()` currently returns and the last
velocity passed to `set_velocity`. -/
structure Motor where
  enc : ℝ
  vel : ℝ

/-- State of a `devices.Wheel` (devices.py lines 46-79): the fixed
geometry and the goal fields.  `start_pos = none` models `_start_pos =
None` from `__init__`; `goal_pos = none` models the `_goal_pos` slot
never having been assigned.  (The `_velocity` field stored by
`set_goal` is never read by the code under verification and is
omitted.) -/
structure Wheel where
  radius : ℝ
  ticks_per_rot : ℝ
  start_pos : Option ℝ
  goal_pos : Option ℝ

/-- A freshly constructed wheel: no goal ever set. -/
def Wheel.mk0 (radius ticks_per_rot : ℝ) : Wheel :=
  ⟨radius, ticks_per_rot, none, none⟩

/-- Function `Wheel.set_goal(goal, velocity)` (devices.py lines 59-63):
capture the current encoder reading as `_start_pos`, set `_goal_pos :=
ceil(goal / (radius * 2 * pi) * ticks_per_rot)` and command the motor
at `copysign(velocity, _goal_pos)`. -/
noncomputable def set_goal (w : Wheel) (m : Motor) (goal velocity : ℝ) :
    Wheel × Motor :=
  let gp : ℝ := ((⌈goal / (w.radius * 2 * Real.pi) * w.ticks_per_rot⌉ : ℤ) : ℝ)
  ({ w with start_pos := some m.enc, goal_pos := some gp },
   { m with vel := copysign velocity gp })

/-- Function `Wheel.get_goal_progress()` (devices.py lines 64-71).

Modelled from the spec: the guard condition of the first branch is
elided in the source (the line reads `if :`).  Spec §4.4 makes
this the "no goal has ever been set" case and `_start_pos` is the only
field initialised to `None` for that purpose, matching the
`if self._elbow_start_encoder == None: return` idiom of `Arm.update`
in the same repository, so the condition is modelled as `start_pos`
still being `none`.  The branch body `return 0` is from the source.

Error results model Python exceptions: the `goal_pos = none` branch is
the `AttributeError` on a never-assigned slot (unreachable after
`set_goal`), and the `gp - sp = 0` branch is the `ZeroDivisionError`
raised by the unguarded division `(goal - enc) / (goal - start)`. -/
noncomputable def get_goal_progress (w : Wheel) (m : Motor) : Except Unit ℝ :=
  match w.start_pos with
  | none => .ok 0
  | some sp =>
      match w.goal_pos with
      | none => .error ⟨⟩
      | some gp =>
          if gp = 0 then .ok 1
          else if gp - sp = 0 then .error ⟨⟩
          else .ok (1 - (gp - m.enc) / (gp - sp))

/-- Function `Wheel.stop()` (devices.py lines 72-74): freeze `_goal_pos`
at the current encoder reading and command zero velocity. -/
def Wheel.stop (w : Wheel) (m : Motor) : Wheel × Motor :=
  ({ w with goal_pos := some m.enc }, { m with vel := 0 })

/-! ## Kinematics estimator (`TestChassis`) -/

/-- Function `TestChassis._estimate_travel_time(current_velocity, dist,
should_deaccelerate)` (chassis.py lines 144-165) with the chassis
constants `v_max = _max_velocity` and `a = _max_acceleration` passed
explicitly.  When `should_deaccelerate` is true the source immediately
evaluates `self._will_hit_max_velocity(...)`, whose entire body
(lines 166-167) is `raise NotImplementedError(...)`, so both
closed-form braking branches behind it are dead code; the raise is
modelled as `.error ⟨⟩`.  Otherwise
`t_f = min(v_i + sqrt(v_i^2 + 2*a*|d|), v_max) / a` and
`t_c = t_f` are returned. -/
noncomputable def estimate_travel_time (v_max a current_velocity dist : ℝ)
    (should_deaccelerate : Bool) : Except Unit (ℝ × ℝ) :=
  let d_f := |dist|
  let v_i := current_velocity
  if should_deaccelerate then .error ⟨⟩
  else
    let t_f := min (v_i + Real.sqrt (v_i ^ 2 + 2 * a * d_f)) v_max / a
    .ok (t_f, t_f)

/-! ## Differential-drive turn mapper and `QuadChassis` motor update -/

/-- Function `util.inches_to_meters`.  Modelled from the spec: `util.py`
is missing from the sources; the spec fixes the conversion implicitly
(§8 Scenario 2 gives the 2-inch wheel radius as `0.0508 m`), i.e. the
standard factor `0.0254`. -/
noncomputable def inches_to_meters (x : ℝ) : ℝ := x * 0.0254

/-- Wheel-to-wheel span of `QuadChassis`: `inches_to_meters(14.5)`. -/
noncomputable def quad_wheelspan : ℝ := inches_to_meters 14.5

/-- Per-side target distances computed by `_update_turn(angle)`
(identical formula in `TestChassis`, chassis.py lines 119-123, and
`QuadChassis`, lines 208-212): `goal_dist = angle / wheelspan / 2`,
the left side gets `copysign(goal_dist, angle)` and the right side its
negation. -/
noncomputable def update_turn_dists (wheelspan angle : ℝ) : ℝ × ℝ :=
  let goal_dist := angle / wheelspan / 2
  (copysign goal_dist angle, -(copysign goal_dist angle))

/-- Function `QuadChassis._update_motors(left_dist, right_dist)`
(chassis.py lines 213-220).  The source computes `max_abs_dist =
max(abs(left_dist), abs(right_dist))` and divides the distance of each side
by it inside the `set_goal` calls; when both distances are zero that
division is `0.0 / 0.0` and raises `ZeroDivisionError`, modelled as
the `.error ⟨⟩` branch.  Otherwise both wheel goals are set and the
returned continuation flag is `min(left_progress, right_progress) < 1`
(progress reads may themselves raise, propagated by the match). -/
noncomputable def quad_update_motors (wl wr : Wheel) (ml mr : Motor)
    (left_dist right_dist : ℝ) :
    Except Unit ((Wheel × Motor) × (Wheel × Motor) × Bool) :=
  let max_abs_dist := max |left_dist| |right_dist|
  if max_abs_dist = 0 then .error ⟨⟩
  else
    let lw := set_goal wl ml left_dist (left_dist / max_abs_dist)
    let rw := set_goal wr mr right_dist (right_dist / max_abs_dist)
    match get_goal_progress lw.1 lw.2, get_goal_progress rw.1 rw.2 with
    | .error e, _ => .error e
    | .ok _, .error e => .error e
    | .ok lp, .ok rp => .ok (lw, rw, if min lp rp < 1 then true else false)

/-! ## Simulated robot backend (`mock_robot.py`) -/

/-- Encoder simulation rate `MockRobot._motor_ticks_per_sec`. -/
def motor_ticks_per_sec : ℚ := 2000

/-- Numeric properties of a simulated koalabear device
(`MockRobot._default_device_properties["koalabear"]`, restricted to
the properties the claims exercise) plus the `_LAST_UPDATED`
timestamp.  Exact rationals stand in for Python floats: every constant
involved is exactly representable. -/
structure Koalabear where
  velocity_a : ℚ
  velocity_b : ℚ
  enc_a : ℚ
  enc_b : ℚ
  last_updated : ℚ
  deriving DecidableEq

/-- A koalabear device as lazily populated on first reference at time
`t`: velocities `0.0`, encoders `0`, `_LAST_UPDATED = t`. -/
def Koalabear.init (t : ℚ) : Koalabear := ⟨0, 0, 0, 0, t⟩

/-- The numeric device properties addressed by the claims. -/
inductive KBKey
  | velocity_a
  | velocity_b
  | enc_a
  | enc_b
  deriving DecidableEq

/-- Read a property out of the device dictionary. -/
def Koalabear.read (d : Koalabear) : KBKey → ℚ
  | .velocity_a => d.velocity_a
  | .velocity_b => d.velocity_b
  | .enc_a => d.enc_a
  | .enc_b => d.enc_b

/-- Store a property into the device dictionary. -/
def Koalabear.store (d : Koalabear) : KBKey → ℚ → Koalabear
  | .velocity_a, v => { d with velocity_a := v }
  | .velocity_b, v => { d with velocity_b := v }
  | .enc_a, v => { d with enc_a := v }
  | .enc_b, v => { d with enc_b := v }

/-- Function `MockRobot._update_koalabear` (mock_robot.py lines 76-86),
called at wall-clock time `t`.  The source computes
`dt = device["_LAST_UPDATED"] - timestamp` (last-access time minus the
current time) and writes the new timestamp back before the bounds
checks, so an error result carries the state with `_LAST_UPDATED`
already advanced.  A stored velocity of magnitude greater than `1`
raises `ValueError`, modelled by the error branches; otherwise each
encoder is incremented by `velocity * dt * _motor_ticks_per_sec`. -/
def update_koalabear (d : Koalabear) (t : ℚ) : Except Koalabear Koalabear :=
  let dt := d.last_updated - t
  let d1 := { d with last_updated := t }
  if 1 < |d1.velocity_a| then .error d1
  else if 1 < |d1.velocity_b| then .error d1
  else .ok { d1 with
    enc_a := d1.enc_a + d1.velocity_a * dt * motor_ticks_per_sec,
    enc_b := d1.enc_b + d1.velocity_b * dt * motor_ticks_per_sec }

/-- Function `MockRobot.set_value` (mock_robot.py lines 44-55)
specialised to an already-initialised koalabear device and one of the
modelled numeric properties: the property-existence check passes,
`_update_koalabear` runs first (and may raise), the declared-type
check passes (the modelled properties hold Python floats after the
first update and the claims supply float values), and only then is the
incoming value stored.  There is no bounds check on the incoming
value. -/
def set_value (d : Koalabear) (t : ℚ) (k : KBKey) (v : ℚ) :
    Except Koalabear Koalabear :=
  match update_koalabear d t with
  | .error e => .error e
  | .ok d1 => .ok (d1.store k v)

/-- Function `MockRobot.get_value` (mock_robot.py lines 37-42): runs
`_update_koalabear` (which may raise) and returns the stored value. -/
def get_value (d : Koalabear) (t : ℚ) (k : KBKey) :
    Except Koalabear (Koalabear × ℚ) :=
  match update_koalabear d t with
  | .error e => .error e
  | .ok d1 => .ok (d1, d1.read k)

/-! ## Helper lemmas -/

/-- The finish hook fires in a call of `update()` exactly when the call
sees an empty queue while the idle flag is still cleared, and such a
call sets the flag. -/
lemma chassisUpdate_finish_iff (q : List Nat) (i : Bool) :
    (chassisUpdate q i).2.2 = if q = [] ∧ i = false then 1 else 0 := by
  cases q <;> cases i <;> simp [chassisUpdate] <;> split <;> simp

/-- Running a single still-active motion of length `k` from the cleared
flag: `k + 1` ticks drain it (the last of them pops it and one more
reports the finish), firing no start hook and exactly one finish. -/
lemma runChassis_single_fromActive (k : Nat) :
    runChassis [k] false (k + 2) = (([], true), (0, 1)) := by
  induction k with
  | zero => decide
  | succ m ih =>
      show runChassis [m + 1] false (m + 3) = (([], true), (0, 1))
      simp [runChassis, chassisUpdate] at ih ⊢
      exact ih

/-- A full single-motion emptying cycle from the idle state fires the
start hook once and the finish hook once and returns to the idle
state. -/
lemma runChassis_single_cycle (n : Nat) :
    runChassis [n] true (n + 2) = (([], true), (1, 1)) := by
  cases n with
  | zero => decide
  | succ m =>
      have h := runChassis_single_fromActive m
      simp [runChassis, chassisUpdate] at h ⊢
      exact h

/-- Ceiling computation of §8 Scenario 2:
`ceil(1.0 / (0.0508 * 2 * pi) * 1356.87) = 4252`. -/
lemma scenario2_ceil : ⌈(1 : ℝ) / (0.0508 * 2 * Real.pi) * 1356.87⌉ = 4252 := by
  have h1 := Real.pi_gt_d6
  have h2 := Real.pi_lt_d6
  have hpos : (0 : ℝ) < 0.0508 * 2 * Real.pi := by positivity
  rw [Int.ceil_eq_iff]
  constructor
  · push_cast
    rw [div_mul_eq_mul_div, one_mul, lt_div_iff₀ hpos]
    nlinarith
  · push_cast
    rw [div_mul_eq_mul_div, one_mul, div_le_iff₀ hpos]
    nlinarith

/-- State of the Scenario-2 wheel right after `set_goal(1.0, 1.0)` from
encoder reading `0`: start captured as `0`, goal stored as `4252`. -/
lemma scenario2_goal :
    (set_goal (Wheel.mk0 0.0508 1356.87) ⟨0, 0⟩ 1 1).1 =
      ⟨0.0508, 1356.87, some 0, some 4252⟩ := by
  simp only [set_goal, Wheel.mk0]
  rw [scenario2_ceil]
  norm_num

/-! ## Claim theorems -/

/-- Claim C1 (code evaluation at the failing inputs): the travel-time
estimator does not satisfy the claimed invariant.  Whenever the
must-stop flag is true it raises `NotImplementedError` (from the
unimplemented `_will_hit_max_velocity`) instead of returning a pair at
all — shown here at `v_max = 2, a = 1, v_i = 0, d = 1` — and in the
implemented must-stop-false branch the input
`v_max = 2, a = 1, v_i = 1, d = 0` returns `(2, 2)`, a nonzero pair,
violating "both equal 0 when d = 0". -/
theorem c1_code_eval :
    estimate_travel_time 2 1 0 1 true = .error ⟨⟩ ∧
    estimate_travel_time 2 1 1 0 false = .ok (2, 2) ∧
    (2 : ℝ) ≠ 0 := by
  refine ⟨rfl, ?_, by norm_num⟩
  simp only [estimate_travel_time]
  norm_num [Real.sqrt_one]

/-- Claim C2 (code evaluation at the failing input): `_update_turn`
computes `goal_dist = angle / wheelspan / 2` — a division — so at
`θ = 1` on the `QuadChassis` wheelspan the left/right distances have
magnitude `1 / wheelspan / 2 ≈ 1.3576 m`, not the claimed
`|θ| * wheelspan / 2 ≈ 0.1841 m`; the signs carry as claimed but the
magnitudes differ. -/
theorem c2_code_eval :
    update_turn_dists quad_wheelspan 1 =
      (1 / quad_wheelspan / 2, -(1 / quad_wheelspan / 2)) ∧
    1 / quad_wheelspan / 2 ≠ |(1 : ℝ)| * quad_wheelspan / 2 := by
  have hws : quad_wheelspan = 0.3683 := by
    norm_num [quad_wheelspan, inches_to_meters]
  constructor
  · simp only [update_turn_dists, copysign]
    rw [hws]
    norm_num
  · rw [hws]
    norm_num

/-- Claim C3 (counterexample): on a wheel on which `set_goal` was never
called, `get_goal_progress()` returns the numeric value `0` — it does
not raise. -/
theorem c3_counterexample :
    get_goal_progress (Wheel.mk0 0.0508 1356.87) ⟨0, 0⟩ = .ok 0 ∧
    (.ok (0 : ℝ) : Except Unit ℝ) ≠ .error ⟨⟩ := ⟨rfl, by simp⟩

/-- Claim C3 (amended): for every wheel on which `set_goal` has never
been called and every motor state, `get_goal_progress()` returns the
numeric value `0` rather than raising. -/
theorem c3_amended (radius ticks : ℝ) (m : Motor) :
    get_goal_progress (Wheel.mk0 radius ticks) m = .ok 0 := rfl

/-- Claim C4: `set_goal(0, v)` stores `goal_ticks = ceil(0) = 0` and the
following `get_goal_progress()` returns exactly `1` through the
`goal_ticks == 0` early return, performing no division; and for any
wheel with a goal set (so that a stored `goal_ticks` exists) whose
`goal_ticks` is `0`, `get_goal_progress()` returns `1` the same
way. -/
theorem c4 (w : Wheel) (m : Motor) (v : ℝ) (w2 : Wheel) (m2 : Motor) (sp : ℝ)
    (h1 : w2.start_pos = some sp) (h2 : w2.goal_pos = some 0) :
    get_goal_progress (set_goal w m 0 v).1 (set_goal w m 0 v).2 = .ok 1 ∧
    get_goal_progress w2 m2 = .ok 1 := by
  constructor
  · simp [set_goal, get_goal_progress]
  · simp [get_goal_progress, h1, h2]

/-- Claim C4 witness: concrete instances of both parts. -/
theorem c4_witness :
    get_goal_progress (set_goal (Wheel.mk0 1 1) ⟨0, 0⟩ 0 1).1
        (set_goal (Wheel.mk0 1 1) ⟨0, 0⟩ 0 1).2 = .ok 1 ∧
    get_goal_progress ⟨1, 1, some 3, some 0⟩ ⟨7, 0⟩ = .ok 1 :=
  c4 (Wheel.mk0 1 1) ⟨0, 0⟩ 1 ⟨1, 1, some 3, some 0⟩ ⟨7, 0⟩ 3 rfl rfl

/-- Claim C5 (counterexample): a wheel given a goal by `set_goal` at
encoder reading `5` whose encoder has not moved; `stop()` freezes the
goal at `5 = start_ticks`, and the immediately following
`get_goal_progress()` raises `ZeroDivisionError`
(`(5 - 5) / (5 - 5)`) instead of returning `1`. -/
theorem c5_counterexample :
    get_goal_progress
        (Wheel.stop (set_goal (Wheel.mk0 0.0508 1356.87) ⟨5, 0⟩ 1 1).1
          (set_goal (Wheel.mk0 0.0508 1356.87) ⟨5, 0⟩ 1 1).2).1
        (Wheel.stop (set_goal (Wheel.mk0 0.0508 1356.87) ⟨5, 0⟩ 1 1).1
          (set_goal (Wheel.mk0 0.0508 1356.87) ⟨5, 0⟩ 1 1).2).2 = .error ⟨⟩ := by
  norm_num [set_goal, Wheel.stop, get_goal_progress]

/-- Claim C5 (amended): after a goal has been set, `stop()` commands
zero velocity and freezes the goal at the current encoder reading, and
the immediately following `get_goal_progress()` (encoder unchanged)
returns exactly `1` provided the current encoder reading differs from
the `start_ticks` captured by `set_goal` or reads `0`; when the
encoder has not moved since `set_goal` and reads nonzero the
computation divides zero by zero and raises instead. -/
theorem c5_amended (w : Wheel) (m : Motor) (sp : ℝ)
    (h : w.start_pos = some sp) (hm : m.enc ≠ sp ∨ m.enc = 0) :
    (Wheel.stop w m).2.vel = 0 ∧
    (Wheel.stop w m).1.goal_pos = some m.enc ∧
    get_goal_progress (Wheel.stop w m).1 (Wheel.stop w m).2 = .ok 1 := by
  refine ⟨rfl, rfl, ?_⟩
  simp only [Wheel.stop, get_goal_progress, h]
  rcases hm with hne | h0
  · by_cases hz : m.enc = 0
    · simp [hz]
    · have hd : m.enc - sp ≠ 0 := sub_ne_zero.mpr hne
      simp [hz, hd, sub_self]
  · simp [h0]

/-- Claim C5 witness: wheel with a goal set from start reading `0`,
encoder moved to `3`, stopped there. -/
theorem c5_witness :
    (Wheel.stop (⟨1, 1, some 0, some 7⟩ : Wheel) ⟨3, 1⟩).2.vel = 0 ∧
    (Wheel.stop (⟨1, 1, some 0, some 7⟩ : Wheel) ⟨3, 1⟩).1.goal_pos = some 3 ∧
    get_goal_progress (Wheel.stop (⟨1, 1, some 0, some 7⟩ : Wheel) ⟨3, 1⟩).1
      (Wheel.stop (⟨1, 1, some 0, some 7⟩ : Wheel) ⟨3, 1⟩).2 = .ok 1 :=
  c5_amended ⟨1, 1, some 0, some 7⟩ ⟨3, 1⟩ 0 rfl (Or.inl (by norm_num))

/-- Claim C6 (counterexample): on a freshly initialised simulated
koalabear, `set_value(velocity_a, 1.5)` does not raise — it returns
normally with the stored velocity mutated to `1.5`. -/
theorem c6_counterexample :
    set_value (Koalabear.init 0) 0 .velocity_a (3 / 2) =
      .ok ⟨3 / 2, 0, 0, 0, 0⟩ ∧
    (⟨3 / 2, 0, 0, 0, 0⟩ : Koalabear).velocity_a ≠ (Koalabear.init 0).velocity_a := by
  constructor
  · simp [set_value, update_koalabear, Koalabear.init, Koalabear.store,
      motor_ticks_per_sec]
    norm_num
  · norm_num [Koalabear.init]

/-- Claim C6 (amended): the out-of-bounds velocity `1.5` is accepted and
stored by the `set_value` call itself (only the declared-type check
runs there); the `ValueError` for the out-of-range stored velocity is
raised by `_update_koalabear` at the next access of the device — any
subsequent `get_value` or `set_value`, at any time and for any
property. -/
theorem c6_amended :
    set_value (Koalabear.init 0) 0 .velocity_a (3 / 2) =
      .ok ⟨3 / 2, 0, 0, 0, 0⟩ ∧
    (∀ (t : ℚ) (k : KBKey),
      get_value ⟨3 / 2, 0, 0, 0, 0⟩ t k = .error ⟨3 / 2, 0, 0, 0, t⟩) ∧
    (∀ (t v : ℚ) (k : KBKey),
      set_value ⟨3 / 2, 0, 0, 0, 0⟩ t k v = .error ⟨3 / 2, 0, 0, 0, t⟩) := by
  have h32 : (1 : ℚ) < |(3 / 2 : ℚ)| := by
    rw [abs_of_pos (by norm_num)]
    norm_num
  refine ⟨?_, ?_, ?_⟩
  · simp [set_value, update_koalabear, Koalabear.init, Koalabear.store,
      motor_ticks_per_sec]
    norm_num
  · intro t k
    simp [get_value, update_koalabear, h32]
  · intro t v k
    simp [set_value, update_koalabear, h32]

/-- Claim C7 (counterexample): starting idle with one queued motion that
completes on its first update (the state produced by enqueuing exactly
one immediately-finishing command), a single `update()` call leaves
the queue empty while the idle flag is still `false` — the claimed
"idle flag true iff queue empty" fails at this observation point. -/
theorem c7_counterexample :
    (chassisUpdate [0] true).1.1 = [] ∧ (chassisUpdate [0] true).1.2 = false := by
  decide

/-- Claim C7 (amended): the idle flag lags queue emptiness by one
`update()` call rather than tracking it at every observation point:
the finish hook fires in an `update()` exactly when that call sees an
empty queue with the flag still active, and that call sets the flag,
so the flag is cleared during the first update that sees a nonempty
queue and set again on the first update after the queue empties.
Consequently a single-motion emptying cycle of any length fires the
start hook exactly once and the finish hook exactly once, an idle
chassis fires neither, and the start hook fires once per motion — a
two-motion cycle fires it twice — not once per emptying cycle. -/
theorem c7_amended :
    (∀ (q : List Nat) (i : Bool),
      (chassisUpdate q i).2.2 = if q = [] ∧ i = false then 1 else 0) ∧
    (chassisUpdate [] false).1.2 = true ∧
    chassisUpdate [] true = (([], true), (0, 0)) ∧
    (∀ n : Nat, runChassis [n] true (n + 2) = (([], true), (1, 1))) ∧
    runChassis [0, 0] true 3 = (([], true), (2, 1)) :=
  ⟨chassisUpdate_finish_iff, by decide, by decide, runChassis_single_cycle,
    by decide⟩

/-- Claim C8 (code evaluation at the failing input): a koalabear with
stored `velocity_a = 1` last updated at time `0` and accessed at time
`1` has its encoder moved by `1 * (0 - 1) * 2000 = -2000` ticks — the
source computes `dt = _LAST_UPDATED - timestamp`, so with a constant
positive velocity the encoder decreases as time advances instead of
advancing forward. -/
theorem c8_code_eval :
    update_koalabear ⟨1, 0, 0, 0, 0⟩ 1 = .ok ⟨1, 0, -2000, 0, 1⟩ ∧
    (-2000 : ℚ) < 0 := by
  constructor
  · simp [update_koalabear, motor_ticks_per_sec]
  · norm_num

/-- Claim C9 (counterexample): with radius `0.0508` and `1356.87` ticks
per rotation, `set_goal(1.0, 1.0)` from encoder reading `0` stores
`goal_ticks = ceil(1.0 / (2 * pi * 0.0508) * 1356.87) = 4252`, not the
claimed `4253`. -/
theorem c9_counterexample :
    (set_goal (Wheel.mk0 0.0508 1356.87) ⟨0, 0⟩ 1 1).1.goal_pos = some 4252 ∧
    (4252 : ℝ) ≠ 4253 := by
  rw [scenario2_goal]
  exact ⟨rfl, by norm_num⟩

/-- Claim C9 (amended): the stored goal is `4252` ticks, and
`get_goal_progress()` returns `0` while the encoder reads `0` and `1`
when the encoder reads `4252`. -/
theorem c9_amended :
    (set_goal (Wheel.mk0 0.0508 1356.87) ⟨0, 0⟩ 1 1).1.goal_pos = some 4252 ∧
    get_goal_progress (set_goal (Wheel.mk0 0.0508 1356.87) ⟨0, 0⟩ 1 1).1
      ⟨0, 1⟩ = .ok 0 ∧
    get_goal_progress (set_goal (Wheel.mk0 0.0508 1356.87) ⟨0, 0⟩ 1 1).1
      ⟨4252, 1⟩ = .ok 1 := by
  rw [scenario2_goal]
  refine ⟨rfl, ?_, ?_⟩ <;> norm_num [get_goal_progress]

/-- Claim C10: when both per-side target distances are zero — exactly
what `_update_turn` produces for the angle `0.0` enqueued by
`turn(0.0)` — `QuadChassis._update_motors` raises `ZeroDivisionError`,
because it divides the distance of each side by
`max(|left_dist|, |right_dist|) = 0` while computing the goal
velocities. -/
theorem c10 (wl wr : Wheel) (ml mr : Motor) (ld rd : ℝ)
    (h : max |ld| |rd| = 0) :
    update_turn_dists quad_wheelspan 0 = (0, 0) ∧
    quad_update_motors wl wr ml mr ld rd = .error ⟨⟩ := by
  constructor
  · simp [update_turn_dists, copysign]
  · simp [quad_update_motors, h]

/-- Claim C10 witness: fresh wheels and motors with both distances
zero. -/
theorem c10_witness :
    update_turn_dists quad_wheelspan 0 = (0, 0) ∧
    quad_update_motors (Wheel.mk0 0.0508 1356.87) (Wheel.mk0 0.0508 1356.87)
      ⟨0, 0⟩ ⟨0, 0⟩ 0 0 = .error ⟨⟩ :=
  c10 (Wheel.mk0 0.0508 1356.87) (Wheel.mk0 0.0508 1356.87) ⟨0, 0⟩ ⟨0, 0⟩ 0 0
    (by norm_num)

end PIE
